import Mathlib

/-!
Verification of the spatial filter-and-aggregate pipeline of
`web_mapping_project2025_2.py` (Streamlit/GeoPandas dashboard).

The embedding models pandas/GeoPandas data frames shallowly: a frame is a
list of column names together with a list of typed rows and an optional
coordinate reference system tag.  Numeric cells are rationals (the code
manipulates them only through coercion, filtering and summation, none of
which depends on floating-point rounding); nullable cells are `Option`s
(`none` models NaN / missing).  Geometry validity is abstracted to the two
flags the code consults (`is_valid`, `is_empty`), and the spatial predicate
of `gpd.sjoin` is a parameter, since it is library code external to the
repository.
-/

namespace WebMapping

/-- A pandas/GeoPandas data frame: column-name list, typed rows, and an
optional CRS tag.  `rows.isEmpty` models the `.empty` test the code uses. -/
structure GDF (α : Type) where
  cols : List String
  rows : List α
  crs : Option String
deriving Repr, DecidableEq

/-- Geometry abstracted to the two flags consulted by the loader
(`gdf.is_valid`, `gdf.is_empty`); actual shapes live in shapely. -/
structure Geom where
  is_valid : Bool
  is_empty : Bool
deriving Repr, DecidableEq

/-- One raw row of the SE polygon source after the rename step: each
attribute cell is nullable (`none` = NaN), geometry is abstracted. -/
structure RawBoundaryRow where
  geom : Geom
  region : Option String
  cercle : Option String
  commune : Option String
  idse_new : Option String
  pop_se : Option Int
  pop_se_ct : Option Int
deriving Repr, DecidableEq

/-- A loaded point record: numeric coordinates (coercion already succeeded)
plus the optional demographic cells carried along from the CSV. -/
structure PointRec where
  latitude : ℚ
  longitude : ℚ
  masculin : Option Int
  feminin : Option Int
deriving Repr, DecidableEq

/-- The pandas emptiness test `points.empty` / `polygons.empty`, lifted to the
`Option` that models a `None` frame. -/
def isNoneOrEmpty {α : Type} : Option (GDF α) → Bool
  | none => true
  | some g => g.rows.isEmpty

/-- Columns of an optional frame: `points.columns if points is not None
else []`, exactly as in `safe_sjoin`. -/
def pointCols {α : Type} : Option (GDF α) → List String
  | none => []
  | some g => g.cols

/-- CRS of an optional frame: `points.crs if points is not None else None`. -/
def pointCrs {α : Type} : Option (GDF α) → Option String
  | none => none
  | some g => g.crs

/-- The column-drop loop of `safe_sjoin`: leftover join-key columns
`index_right` and `_r` are removed from the polygon frame before joining. -/
def dropJoinCols {β : Type} (g : GDF β) : GDF β :=
  { g with cols := g.cols.filter (fun c => c ≠ "index_right" && c ≠ "_r") }

/-- Row semantics of `gpd.sjoin(points, polygons, how="inner", ...)`: each
left row, in order, paired with every right row satisfying the spatial
predicate. -/
def sjoinRows {α β : Type} (pred : α → β → Bool) (ps : List α) (qs : List β) :
    List (α × β) :=
  ps.flatMap (fun p => (qs.filter (fun q => pred p q)).map (fun q => (p, q)))

/-- The function `safe_sjoin` from the source: if either frame is `None` or empty,
return an empty GeoDataFrame carrying the point frame's columns and CRS;
otherwise drop leftover join-key columns from the polygons and delegate to
`gpd.sjoin`. -/
def safe_sjoin {α β : Type} (pred : α → β → Bool)
    (points : Option (GDF α)) (polygons : Option (GDF β)) : GDF (α × β) :=
  if isNoneOrEmpty points || isNoneOrEmpty polygons then
    { cols := pointCols points, rows := [], crs := pointCrs points }
  else
    match points, polygons with
    | some p, some q =>
        let q := dropJoinCols q
        { cols := p.cols ++ q.cols ++ ["index_right"]
          rows := sjoinRows pred p.rows q.rows
          crs := p.crs }
    | _, _ => { cols := pointCols points, rows := [], crs := pointCrs points }

/-- A joined record of the sex-statistics panel: a point row paired with
the boundary row it fell in (output of `safe_sjoin`). -/
abbrev JoinedRec := PointRec × RawBoundaryRow

/-- Source expression `m_total = int(pts_inside["Masculin"].sum()) if not pts_inside.empty
else 0`.  Pandas `.sum()` skips NaN cells, hence the `filterMap`. -/
def m_total (pts_inside : GDF JoinedRec) : Int :=
  if pts_inside.rows.isEmpty then 0
  else (pts_inside.rows.filterMap (fun r => r.1.masculin)).sum

/-- Source expression `f_total = int(pts_inside["Feminin"].sum()) if not pts_inside.empty
else 0`. -/
def f_total (pts_inside : GDF JoinedRec) : Int :=
  if pts_inside.rows.isEmpty then 0
  else (pts_inside.rows.filterMap (fun r => r.1.feminin)).sum

/-- Source pattern `sorted(series.dropna().unique())`: drop null cells, deduplicate,
sort lexicographically. -/
def uniqueSorted (l : List (Option String)) : List String :=
  ((l.filterMap id).dedup).insertionSort (· ≤ ·)

/-- Source line `gdf_r = gdf[gdf["region"] == region]` (pandas `==` is false on NaN,
so only non-null matches survive). -/
def filter_region (g : GDF RawBoundaryRow) (region : String) :
    GDF RawBoundaryRow :=
  { g with rows := g.rows.filter (fun r => r.region == some region) }

/-- Source line `gdf_c = gdf_r[gdf_r["cercle"] == cercle]`. -/
def filter_cercle (g : GDF RawBoundaryRow) (cercle : String) :
    GDF RawBoundaryRow :=
  { g with rows := g.rows.filter (fun r => r.cercle == some cercle) }

/-- Source line `gdf_commune = gdf_c[gdf_c["commune"] == commune]`. -/
def filter_commune (g : GDF RawBoundaryRow) (commune : String) :
    GDF RawBoundaryRow :=
  { g with rows := g.rows.filter (fun r => r.commune == some commune) }

/-- Source expression `sorted(gdf_r["cercle"].dropna().unique())`: the cercle choice list
offered after the region level. -/
def cercle_choices (g : GDF RawBoundaryRow) : List String :=
  uniqueSorted (g.rows.map (fun r => r.cercle))

/-- Source expression `sorted(gdf_c["commune"].dropna().unique())`: the commune choice list
offered after the cercle level. -/
def commune_choices (g : GDF RawBoundaryRow) : List String :=
  uniqueSorted (g.rows.map (fun r => r.commune))

/-- Source line `idse_list = ["No filter"] +
sorted(gdf_commune["idse_new"].dropna().unique())`: the unit-level choice
list, with the sentinel "No filter" prepended to the sorted deduplicated
unit ids of the commune-filtered frame. -/
def idse_choices (g : GDF RawBoundaryRow) : List String :=
  "No filter" :: uniqueSorted (g.rows.map (fun r => r.idse_new))

theorem mem_uniqueSorted (l : List (Option String)) (x : String) :
    x ∈ uniqueSorted l ↔ some x ∈ l := by
  simp [uniqueSorted, List.mem_insertionSort, List.mem_dedup,
    List.mem_filterMap]

theorem uniqueSorted_sorted (l : List (Option String)) :
    (uniqueSorted l).Sorted (· ≤ ·) :=
  List.sorted_insertionSort _ _

theorem uniqueSorted_nodup (l : List (Option String)) :
    (uniqueSorted l).Nodup :=
  (List.perm_insertionSort _ _).nodup_iff.mpr (List.nodup_dedup _)

/-- A parsed CSV cell: numeric-coercible content is `num` (so that
`pd.to_numeric(..., errors="coerce")` succeeds on it), other text fails
coercion, `null` is a missing cell. -/
inductive Cell
  | num (q : ℚ)
  | text (s : String)
  | null
deriving Repr, DecidableEq

/-- Cellwise `pd.to_numeric(..., errors="coerce")`: `none` models the
NaN produced by a failed coercion (later removed by `dropna`). -/
def to_numeric : Cell → Option ℚ
  | .num q => some q
  | .text _ => none
  | .null => none

/-- One raw row of the concession CSV: the `LAT`/`LON` cells before
coercion plus the optional demographic cells carried along. -/
structure RawPointRow where
  lat : Cell
  lon : Cell
  masculin : Option Int
  feminin : Option Int
deriving Repr, DecidableEq

/-- The parsed concession CSV: column names and raw rows. -/
structure Csv where
  cols : List String
  rows : List RawPointRow
deriving Repr, DecidableEq

/-- The function `load_points_from_github` from the source.  The `Option Csv` input
models the `try`/`except` around `pd.read_csv` (`none` = fetch or parse
failure).  If the `LAT`/`LON` columns are absent the loader returns `None`;
otherwise it coerces both coordinate columns, drops rows where either
coercion failed, and builds a point GeoDataFrame in EPSG:4326 with
geometry derived from `(LON, LAT)`. -/
def load_points_from_github (fetched : Option Csv) : Option (GDF PointRec) :=
  match fetched with
  | none => none
  | some df =>
      if "LAT" ∈ df.cols ∧ "LON" ∈ df.cols then
        some { cols := df.cols ++ ["geometry"]
               rows := df.rows.filterMap (fun r =>
                 match to_numeric r.lat, to_numeric r.lon with
                 | some la, some lo => some ⟨la, lo, r.masculin, r.feminin⟩
                 | _, _ => none)
               crs := some "EPSG:4326" }
      else none

/-- Column normalization of the boundary loader, applied to the column
list: `columns.str.lower().str.strip()` followed by the
`lregion`/`lcercle`/`lcommune` rename.  Row cells are modelled in
canonical slots throughout, so the rename acts on the column list only. -/
def normCols (cols : List String) : List String :=
  (cols.map (fun c => c.toLower.trim)).map (fun c =>
    if c = "lregion" then "region"
    else if c = "lcercle" then "cercle"
    else if c = "lcommune" then "commune"
    else c)

/-- The column-absence defaults of `load_se_data`: hierarchy columns
missing from the frame are created holding `""`, population columns
holding `0`, applied per row. -/
def fillDefaults (cols : List String) (r : RawBoundaryRow) : RawBoundaryRow :=
  { r with
    region := if "region" ∈ cols then r.region else some ""
    cercle := if "cercle" ∈ cols then r.cercle else some ""
    commune := if "commune" ∈ cols then r.commune else some ""
    idse_new := if "idse_new" ∈ cols then r.idse_new else some ""
    pop_se := if "pop_se" ∈ cols then r.pop_se else some 0
    pop_se_ct := if "pop_se_ct" ∈ cols then r.pop_se_ct else some 0 }

/-- Modelled from the spec: the session add-point operation (spec 4.2,
"Mutability") is absent from this source file, which only initializes and
caches `st.session_state.points_gdf`; per the spec it appends a single
point with explicit coordinates and no other attributes to the in-memory
collection. -/
def add_point (pts : GDF PointRec) (lat lon : ℚ) : GDF PointRec :=
  { pts with rows := pts.rows ++ [⟨lat, lon, none, none⟩] }

/-- One row of the long-form bar-chart frame produced by `melt`. -/
structure LongRow where
  idse_new : String
  Variable : String
  Population : Option Int
deriving Repr, DecidableEq

/-- Pandas `astype(str)` on a nullable cell: pandas renders NaN as the string
"nan". -/
def pyStr : Option String → String
  | some s => s
  | none => "nan"

/-- The frame `df_long` from the source: select `idse_new`/`pop_se`/`pop_se_ct`,
stringify the unit id, melt to long form (pandas melt emits all `pop_se`
rows first, then all `pop_se_ct` rows), then replace the raw variable
names by the chart labels. -/
def df_long (g : GDF RawBoundaryRow) : List LongRow :=
  let melted :=
    (g.rows.map (fun r => LongRow.mk (pyStr r.idse_new) "pop_se" r.pop_se)) ++
    (g.rows.map (fun r => LongRow.mk (pyStr r.idse_new) "pop_se_ct" r.pop_se_ct))
  melted.map (fun row =>
    { row with Variable :=
        if row.Variable = "pop_se" then "Pop SE"
        else if row.Variable = "pop_se_ct" then "Pop Actu"
        else row.Variable })

/-- The long-form frame as the claim words it: identical reshape but with
the labels "declared" and "current" substituted for the raw field names.
Stated from the claim, for comparison with `df_long`. -/
def df_long_claim (g : GDF RawBoundaryRow) : List LongRow :=
  (g.rows.map (fun r => LongRow.mk (pyStr r.idse_new) "declared" r.pop_se)) ++
  (g.rows.map (fun r => LongRow.mk (pyStr r.idse_new) "current" r.pop_se_ct))

/-- A drawn feature's geometry, restricted to the kinds `get_coords`
handles: a point, a polygon (exterior ring in (x, y) order), or a
multi-point that `explode` splits into points. -/
inductive DrawnGeom
  | pt (x y : ℚ)
  | poly (exterior : List (ℚ × ℚ))
  | multipt (points : List (ℚ × ℚ))
deriving Repr, DecidableEq

/-- The function `get_coords` from the source: a Point contributes its (y, x) pair, a
Polygon the (lat, lon)-swapped coordinates of its exterior ring, a
MultiPoint its exploded member points. -/
def get_coords : DrawnGeom → List (ℚ × ℚ)
  | .pt x y => [(y, x)]
  | .poly exterior => exterior.map (fun p => (p.2, p.1))
  | .multipt points => points.map (fun p => (p.2, p.1))

/-- The drawn-features loop building `drawn_points_df`: starts from an
empty frame and, for each feature whose coordinate list is nonempty,
rebuilds the frame from that feature's coordinates (plain assignment
inside the loop, not concatenation). -/
def drawn_points_df (features : List DrawnGeom) : List (ℚ × ℚ) :=
  features.foldl
    (fun acc f =>
      let coords_list := get_coords f
      if coords_list.isEmpty then acc else coords_list) []

/-- The canonical hierarchy and population columns guaranteed after
loading. -/
def canonicalCols : List String :=
  ["region", "cercle", "commune", "idse_new", "pop_se", "pop_se_ct"]

/-- The function `load_se_data` from the source: reproject to EPSG:4326, normalize and
rename columns, keep only rows with valid non-empty geometry
(`gdf[gdf.is_valid & ~gdf.is_empty]`), then create each missing canonical
column with its default (new columns are appended after the existing
ones, as pandas column assignment does). -/
def load_se_data (src : GDF RawBoundaryRow) : GDF RawBoundaryRow :=
  let cols := normCols src.cols
  { cols := cols ++ canonicalCols.filter (fun c => decide (c ∉ cols))
    rows := (src.rows.filter (fun r => r.geom.is_valid && !r.geom.is_empty)).map
      (fillDefaults cols)
    crs := some "EPSG:4326" }

end WebMapping

namespace WebMapping

/-- C1: if either input of `safe_sjoin` is absent (`None`) or empty, the
result is an empty joined frame whose columns are the point frame's
attribute columns (the empty list when the point frame itself is absent),
so a caller can always compute its size. -/
theorem safe_sjoin_empty_inputs {α β : Type} (pred : α → β → Bool)
    (points : Option (GDF α)) (polygons : Option (GDF β))
    (h : points = none ∨ (∃ p, points = some p ∧ p.rows = []) ∨
         polygons = none ∨ (∃ q, polygons = some q ∧ q.rows = [])) :
    (safe_sjoin pred points polygons).rows = [] ∧
    (safe_sjoin pred points polygons).cols = pointCols points := by
  have hcond : (isNoneOrEmpty points || isNoneOrEmpty polygons) = true := by
    rcases h with h | ⟨p, hp, hrows⟩ | h | ⟨q, hq, hrows⟩
    · subst h; rfl
    · subst hp; simp [isNoneOrEmpty, hrows]
    · subst h; simp [isNoneOrEmpty]
    · subst hq; simp [isNoneOrEmpty, hrows]
  simp [safe_sjoin, hcond]

/-- Witness for C1 at concrete inputs: a nonempty point frame joined
against an empty polygon frame yields no rows and keeps the point
columns. -/
theorem safe_sjoin_empty_inputs_witness :
    (safe_sjoin (fun (_ : PointRec) (_ : RawBoundaryRow) => true)
        (some ⟨["LAT", "LON", "geometry"],
               [⟨0, 0, none, none⟩], some "EPSG:4326"⟩)
        (some ⟨["region"], [], some "EPSG:4326"⟩)).rows = [] ∧
    (safe_sjoin (fun (_ : PointRec) (_ : RawBoundaryRow) => true)
        (some ⟨["LAT", "LON", "geometry"],
               [⟨0, 0, none, none⟩], some "EPSG:4326"⟩)
        (some ⟨["region"], [], some "EPSG:4326"⟩)).cols =
      pointCols (some (⟨["LAT", "LON", "geometry"],
               [⟨0, 0, none, none⟩], some "EPSG:4326"⟩ : GDF PointRec)) :=
  safe_sjoin_empty_inputs _ _ _
    (Or.inr (Or.inr (Or.inr ⟨_, rfl, rfl⟩)))

/-- C2: summing the `Masculin` / `Feminin` fields of a joined frame yields
the integer sum of the non-null cells, and on an empty joined frame both
totals are 0 (the guard short-circuits the empty reduction). -/
theorem demographic_sums_total :
    ∀ g : GDF JoinedRec,
      (m_total g = (g.rows.filterMap (fun r => r.1.masculin)).sum ∧
       f_total g = (g.rows.filterMap (fun r => r.1.feminin)).sum) ∧
      ∀ (c : List String) (k : Option String),
        m_total ⟨c, [], k⟩ = 0 ∧ f_total ⟨c, [], k⟩ = 0 := by
  intro g
  refine ⟨⟨?_, ?_⟩, fun c k => ⟨rfl, rfl⟩⟩
  · by_cases h : g.rows = [] <;> simp [m_total, h]
  · by_cases h : g.rows = [] <;> simp [f_total, h]

/-- C3 (amended): at the cercle and commune levels of the sidebar cascade
the choice list is sorted, deduplicated, and drawn from the currently
filtered frame: a cercle is offered under a region exactly when some row
of the dataset carries that (region, cercle) pair, and likewise one level
down for communes.  At the unit level the list is the sentinel
"No filter" followed by the sorted deduplicated unit ids of the filtered
frame: an entry is either the sentinel or a unit id co-occurring with the
selected (region, cercle, commune) triple. -/
theorem cascade_choices_from_filtered (g : GDF RawBoundaryRow)
    (region cercle commune c : String) :
    (cercle_choices (filter_region g region)).Sorted (· ≤ ·) ∧
    (cercle_choices (filter_region g region)).Nodup ∧
    (c ∈ cercle_choices (filter_region g region) ↔
      ∃ r ∈ g.rows, r.region = some region ∧ r.cercle = some c) ∧
    (∀ co : String,
      co ∈ commune_choices (filter_cercle (filter_region g region) cercle) ↔
        ∃ r ∈ g.rows, r.region = some region ∧ r.cercle = some cercle ∧
          r.commune = some co) ∧
    (∀ u : String,
      u ∈ idse_choices
          (filter_commune (filter_cercle (filter_region g region) cercle)
            commune) ↔
        u = "No filter" ∨
        ∃ r ∈ g.rows, r.region = some region ∧ r.cercle = some cercle ∧
          r.commune = some commune ∧ r.idse_new = some u) := by
  refine ⟨uniqueSorted_sorted _, uniqueSorted_nodup _, ?_, ?_, ?_⟩
  · simp only [cercle_choices, mem_uniqueSorted, filter_region,
      List.mem_map, List.mem_filter, beq_iff_eq]
    tauto
  · intro co
    simp only [commune_choices, mem_uniqueSorted, filter_cercle,
      filter_region, List.mem_map, List.mem_filter, beq_iff_eq]
    tauto
  · intro u
    simp only [idse_choices, List.mem_cons, mem_uniqueSorted,
      filter_commune, filter_cercle, filter_region, List.mem_map,
      List.mem_filter, beq_iff_eq]
    tauto

/-- A two-row boundary frame used to instantiate the cascade theorem:
cercle X appears under region A only, cercle Y under region B only. -/
def exCascade : GDF RawBoundaryRow :=
  { cols := ["region", "cercle", "commune", "idse_new", "pop_se", "pop_se_ct"]
    rows := [⟨⟨true, false⟩, some "A", some "X", some "M", some "U1",
              some 100, some 120⟩,
             ⟨⟨true, false⟩, some "B", some "Y", some "N", some "U2",
              some 50, some 60⟩]
    crs := some "EPSG:4326" }

/-- Witness for C3: under region A the cercle choice list contains X
(which co-occurs with A) and excludes Y (which never occurs under A). -/
theorem cascade_choices_from_filtered_witness :
    "X" ∈ cercle_choices (filter_region exCascade "A") ∧
    "Y" ∉ cercle_choices (filter_region exCascade "A") := by
  constructor
  · exact (cascade_choices_from_filtered exCascade "A" "X" "M" "X").2.2.1.mpr
      ⟨⟨⟨true, false⟩, some "A", some "X", some "M", some "U1",
        some 100, some 120⟩, by simp [exCascade], rfl, rfl⟩
  · intro hmem
    have h :=
      (cascade_choices_from_filtered exCascade "A" "X" "M" "Y").2.2.1.mp hmem
    simp [exCascade] at h

/-- Counterexample for C3 as stated: the unit-level choice list prepends
the sentinel "No filter", which is not a unit-id field value of the
filtered frame, so the list does not equal the sorted deduplicated set of
that level's field values. -/
theorem idse_choices_sentinel_counterexample :
    idse_choices
        (filter_commune (filter_cercle (filter_region exCascade "A") "X")
          "M") =
      ["No filter", "U1"] ∧
    idse_choices
        (filter_commune (filter_cercle (filter_region exCascade "A") "X")
          "M") ≠
      uniqueSorted
        ((filter_commune (filter_cercle (filter_region exCascade "A") "X")
            "M").rows.map (fun r => r.idse_new)) ∧
    ¬ ∃ r ∈ (filter_commune (filter_cercle (filter_region exCascade "A") "X")
          "M").rows, r.idse_new = some "No filter" := by
  refine ⟨by decide, by decide, by decide⟩

/-- C6: the boundary loader keeps exactly the rows whose geometry is valid
and non-empty, and every loaded record has valid non-empty geometry. -/
theorem load_se_data_drops_invalid (src : GDF RawBoundaryRow) :
    (load_se_data src).rows.length =
      (src.rows.filter (fun r => r.geom.is_valid && !r.geom.is_empty)).length ∧
    ∀ r ∈ (load_se_data src).rows,
      r.geom.is_valid = true ∧ r.geom.is_empty = false := by
  constructor
  · simp [load_se_data]
  · intro r hr
    simp only [load_se_data, List.mem_map] at hr
    obtain ⟨s, hs, rfl⟩ := hr
    have h := (List.mem_filter.mp hs).2
    simp only [Bool.and_eq_true, Bool.not_eq_true'] at h
    simpa [fillDefaults] using h

/-- A boundary source with one invalid (self-intersecting) polygon and two
valid ones. -/
def exSeSrc : GDF RawBoundaryRow :=
  { cols := ["region", "cercle", "commune", "idse_new", "pop_se", "pop_se_ct"]
    rows := [⟨⟨false, false⟩, some "A", some "X", some "M", some "U0",
              some 10, some 11⟩,
             ⟨⟨true, false⟩, some "A", some "X", some "M", some "U1",
              some 100, some 120⟩,
             ⟨⟨true, false⟩, some "A", some "X", some "M", some "U2",
              some 50, some 60⟩]
    crs := some "EPSG:4326" }

/-- Witness for C6: the three-row source with one self-intersecting
polygon loads into exactly two boundary records. -/
theorem load_se_data_drops_invalid_witness :
    (load_se_data exSeSrc).rows.length = 2 :=
  ((load_se_data_drops_invalid exSeSrc).1).trans (by rfl)

/-- C8: after loading, every canonical hierarchy and population column is
present, and when a canonical column was absent from the (normalized)
source column list, every loaded row holds its default: the empty string
for hierarchy fields, zero for population fields. -/
theorem load_se_data_fills_defaults (src : GDF RawBoundaryRow) :
    (∀ c ∈ canonicalCols, c ∈ (load_se_data src).cols) ∧
    ∀ r ∈ (load_se_data src).rows,
      ("region" ∉ normCols src.cols → r.region = some "") ∧
      ("cercle" ∉ normCols src.cols → r.cercle = some "") ∧
      ("commune" ∉ normCols src.cols → r.commune = some "") ∧
      ("idse_new" ∉ normCols src.cols → r.idse_new = some "") ∧
      ("pop_se" ∉ normCols src.cols → r.pop_se = some 0) ∧
      ("pop_se_ct" ∉ normCols src.cols → r.pop_se_ct = some 0) := by
  constructor
  · intro c hc
    by_cases h : c ∈ normCols src.cols <;>
      simp [load_se_data, List.mem_filter, h, hc]
  · intro r hr
    simp only [load_se_data, List.mem_map] at hr
    obtain ⟨s, hs, rfl⟩ := hr
    refine ⟨fun h => ?_, fun h => ?_, fun h => ?_, fun h => ?_,
      fun h => ?_, fun h => ?_⟩ <;> simp [fillDefaults, h]

/-- A boundary source with no columns at all (every optional column
absent) and a single valid row whose cells are null. -/
def exBareSrc : GDF RawBoundaryRow :=
  { cols := []
    rows := [⟨⟨true, false⟩, none, none, none, none, none, none⟩]
    crs := none }

/-- Witness for C8: loading a source without any canonical column still
produces the `region` column and defaults the row's hierarchy and
population cells. -/
theorem load_se_data_fills_defaults_witness :
    "region" ∈ (load_se_data exBareSrc).cols ∧
    ∀ r ∈ (load_se_data exBareSrc).rows,
      r.region = some "" ∧ r.pop_se = some 0 := by
  have h := load_se_data_fills_defaults exBareSrc
  refine ⟨h.1 "region" (by simp [canonicalCols]), fun r hr => ?_⟩
  have h2 := h.2 r hr
  exact ⟨h2.1 (by simp [exBareSrc, normCols]),
         (h2.2.2.2.2.1) (by simp [exBareSrc, normCols])⟩

/-- C7: a point source lacking the LAT or LON column loads to the explicit
`None` result, and downstream `safe_sjoin` treats that `None` as a valid
empty state, returning an empty frame rather than raising. -/
theorem load_points_no_coord_cols {β : Type} (csv : Csv)
    (pred : PointRec → β → Bool) (polys : Option (GDF β))
    (h : "LAT" ∉ csv.cols ∨ "LON" ∉ csv.cols) :
    load_points_from_github (some csv) = none ∧
    (safe_sjoin pred (load_points_from_github (some csv)) polys).rows = [] := by
  have hnone : load_points_from_github (some csv) = none := by
    simp only [load_points_from_github]
    rw [if_neg (by tauto)]
  refine ⟨hnone, ?_⟩
  rw [hnone]
  simp [safe_sjoin, isNoneOrEmpty]

/-- A point CSV whose columns lack LON. -/
def exNoLonCsv : Csv :=
  { cols := ["LAT", "Masculin", "Feminin"]
    rows := [⟨Cell.num 10, Cell.num 3, some 1, some 2⟩] }

/-- Witness for C7: the LON-less CSV loads to `None` and a join of that
result against a polygon frame has no rows. -/
theorem load_points_no_coord_cols_witness :
    load_points_from_github (some exNoLonCsv) = none ∧
    (safe_sjoin (fun (_ : PointRec) (_ : RawBoundaryRow) => true)
      (load_points_from_github (some exNoLonCsv))
      (some exCascade)).rows = [] :=
  load_points_no_coord_cols exNoLonCsv _ _ (Or.inr (by decide))

/-- C4 (amended): every point record produced by the loader carries the
successfully coerced numeric coordinates of some source row (rows failing
coercion on LAT or LON are discarded); no `[-90, 90]` / `[-180, 180]`
range restriction is enforced. -/
theorem load_points_coerces_and_discards (csv : Csv) (g : GDF PointRec)
    (hload : load_points_from_github (some csv) = some g) :
    ∀ rec ∈ g.rows, ∃ row ∈ csv.rows,
      to_numeric row.lat = some rec.latitude ∧
      to_numeric row.lon = some rec.longitude ∧
      rec.masculin = row.masculin ∧ rec.feminin = row.feminin := by
  intro rec hrec
  simp only [load_points_from_github] at hload
  by_cases hc : "LAT" ∈ csv.cols ∧ "LON" ∈ csv.cols
  · rw [if_pos hc] at hload
    simp only [Option.some.injEq] at hload
    subst hload
    obtain ⟨row, hrow, hf⟩ := List.mem_filterMap.mp hrec
    refine ⟨row, hrow, ?_⟩
    cases hl : to_numeric row.lat with
    | none => rw [hl] at hf; cases hf
    | some la =>
      cases ho : to_numeric row.lon with
      | none => rw [hl, ho] at hf; cases hf
      | some lo =>
        rw [hl, ho] at hf
        simp only [Option.some.injEq] at hf
        subst hf
        simp [hl, ho]
  · rw [if_neg hc] at hload
    cases hload

/-- A point CSV with both coordinate columns, one coercible row whose
latitude cell reads 200, and one row whose latitude is textual. -/
def exPtsCsv : Csv :=
  { cols := ["LAT", "LON", "Masculin", "Feminin"]
    rows := [⟨Cell.num 200, Cell.num 0, some 5, some 7⟩,
             ⟨Cell.text "abc", Cell.num 3, some 1, some 2⟩] }

/-- The frame `exPtsCsv` loads into: the textual row is discarded, the
out-of-range latitude is kept untouched. -/
def exPtsOut : GDF PointRec :=
  { cols := ["LAT", "LON", "Masculin", "Feminin", "geometry"]
    rows := [⟨200, 0, some 5, some 7⟩]
    crs := some "EPSG:4326" }

/-- Counterexample for C4 as stated: the loader keeps a record whose
latitude is 200, outside `[-90, 90]` — no range check exists. -/
theorem load_points_latitude_range_counterexample :
    load_points_from_github (some exPtsCsv) = some exPtsOut ∧
    ∃ rec ∈ exPtsOut.rows, ¬(-90 ≤ rec.latitude ∧ rec.latitude ≤ 90) := by
  refine ⟨by rfl, ⟨200, 0, some 5, some 7⟩, by simp [exPtsOut], ?_⟩
  intro hcon
  have := hcon.2
  norm_num at this

/-- Witness for the amended C4: the surviving record of `exPtsCsv` traces
back to the source row whose cells both coerced. -/
theorem load_points_coerces_and_discards_witness :
    ∃ row ∈ exPtsCsv.rows,
      to_numeric row.lat = some ((200 : ℚ)) ∧
      to_numeric row.lon = some ((0 : ℚ)) ∧
      (some 5 : Option Int) = row.masculin ∧
      (some 7 : Option Int) = row.feminin :=
  load_points_coerces_and_discards exPtsCsv exPtsOut (by rfl)
    ⟨200, 0, some 5, some 7⟩ (by simp [exPtsOut])

/-- C5: appending a point that satisfies the spatial predicate against a
single polygon, then joining against that polygon alone, yields exactly
the previous join result plus one new joined record for the appended
point — it appears exactly once. -/
theorem append_then_join {β : Type} (pred : PointRec → β → Bool)
    (pts : GDF PointRec) (lat lon : ℚ)
    (polyCols : List String) (poly : β) (k : Option String)
    (h : pred ⟨lat, lon, none, none⟩ poly = true) :
    (safe_sjoin pred (some (add_point pts lat lon))
        (some ⟨polyCols, [poly], k⟩)).rows =
      (safe_sjoin pred (some pts) (some ⟨polyCols, [poly], k⟩)).rows ++
        [(⟨lat, lon, none, none⟩, poly)] := by
  by_cases hp : pts.rows = [] <;>
    simp [safe_sjoin, isNoneOrEmpty, add_point, hp, sjoinRows, h,
      List.flatMap_append, dropJoinCols]

/-- Witness for C5: appending the point (1, 2) to an empty collection and
joining against one matching polygon produces exactly that one joined
record. -/
theorem append_then_join_witness :
    (safe_sjoin (fun p (_ : RawBoundaryRow) => decide (p.latitude ≤ 90))
        (some (add_point ⟨["geometry"], [], some "EPSG:4326"⟩ 1 2))
        (some ⟨["region"], [⟨⟨true, false⟩, some "A", some "X", some "M",
                 some "U1", some 100, some 120⟩], some "EPSG:4326"⟩)).rows =
      [(⟨1, 2, none, none⟩,
        ⟨⟨true, false⟩, some "A", some "X", some "M", some "U1",
         some 100, some 120⟩)] := by
  have h := append_then_join
    (fun p (_ : RawBoundaryRow) => decide (p.latitude ≤ 90))
    ⟨["geometry"], [], some "EPSG:4326"⟩ 1 2 ["region"]
    ⟨⟨true, false⟩, some "A", some "X", some "M", some "U1",
     some 100, some 120⟩ (some "EPSG:4326") (by norm_num)
  rw [h]
  simp [safe_sjoin, isNoneOrEmpty]

/-- C9 (amended): `df_long` reshapes the filtered polygon frame from wide
to long form — one row per unit-field pair, all declared-population rows
first — substituting the chart labels "Pop SE" (declared population) and
"Pop Actu" (current population) for the raw field names `pop_se` and
`pop_se_ct`. -/
theorem df_long_reshape (g : GDF RawBoundaryRow) :
    df_long g =
      (g.rows.map (fun r =>
        LongRow.mk (pyStr r.idse_new) "Pop SE" r.pop_se)) ++
      (g.rows.map (fun r =>
        LongRow.mk (pyStr r.idse_new) "Pop Actu" r.pop_se_ct)) := by
  simp only [df_long, List.map_append, List.map_map]
  rfl

/-- A one-row filtered polygon frame for the bar chart. -/
def exPopFrame : GDF RawBoundaryRow :=
  { cols := ["region", "cercle", "commune", "idse_new", "pop_se", "pop_se_ct"]
    rows := [⟨⟨true, false⟩, some "A", some "X", some "M", some "U1",
              some 100, some 120⟩]
    crs := some "EPSG:4326" }

/-- Counterexample for C9 as stated: the substituted labels are "Pop SE"
and "Pop Actu", not "declared" and "current". -/
theorem df_long_labels_counterexample :
    df_long exPopFrame =
      [⟨"U1", "Pop SE", some 100⟩, ⟨"U1", "Pop Actu", some 120⟩] ∧
    df_long exPopFrame ≠ df_long_claim exPopFrame := by
  exact ⟨by rfl, by decide⟩

/-- C10: extending the drawn-feature list by one feature makes the
coordinate table equal that feature's coordinates alone whenever they are
nonempty — each iteration replaces the accumulated frame rather than
extending it, so only the last drawn feature survives. -/
theorem drawn_points_df_last_only (fs : List DrawnGeom) (f : DrawnGeom) :
    drawn_points_df (fs ++ [f]) =
      if (get_coords f).isEmpty then drawn_points_df fs else get_coords f := by
  simp [drawn_points_df, List.foldl_append]

end WebMapping
